import Mathlib

/-
Verification of the SMB container-composition engine
(src/cephadm/cephadmlib/daemons/smb.py).

The Python classes are embedded shallowly: the `Config` dataclass becomes a
Lean structure, the container-role class hierarchy becomes a closed `Role`
inductive plus dispatch functions, `SMB._layout` becomes a pure function
from `Config` to `ContainerLayout`, and the `_NetworkMapper` becomes pure
functions over an association-list network inventory.
-/

/-- The closed set of container roles defined in the source file, one
constructor per `ContainerCommon` subclass. -/
inductive Role where
  | config
  | mustjoin
  | configwatch
  | smbd
  | winbindd
  | smbmetrics
  | ctdbMigrate
  | ctdbMustHaveNode
  | ctdbd
  | ctdbNodes
deriving DecidableEq, Repr

/-- Each role's `name()` method, the string used to derive the container's
sub-identity via `DaemonSubIdentity.from_parent(self.identity, smb_ctr.name())`. -/
def Role.name : Role → String
  | Role.config => "config"
  | Role.mustjoin => "mustjoin"
  | Role.configwatch => "configwatch"
  | Role.smbd => "smbd"
  | Role.winbindd => "winbindd"
  | Role.smbmetrics => "smbmetrics"
  | Role.ctdbMigrate => "ctdbMigrate"
  | Role.ctdbMustHaveNode => "ctdbMustHaveNode"
  | Role.ctdbd => "ctdbd"
  | Role.ctdbNodes => "ctdbNodes"

/-- `ClusterPublicIP` NamedTuple: an address plus an ordered list of
destination network names.  `_NetworkMapper._convert` reuses the same shape
with resolved device names in the second slot. -/
structure ClusterPublicIP where
  address : String
  destinations : List String
deriving DecidableEq, Repr

/-- The frozen `Config` dataclass, with the same fields and defaults.
`identity` is represented by its `daemon_name` string, the only part of it
this engine reads.  Integer fields are `Int` as in Python. -/
structure Config where
  identityDaemonName : String
  instance_id : String
  source_config : String
  domain_member : Bool
  clustered : Bool
  samba_debug_level : Int := 0
  ctdb_log_level : String := ""
  debug_delay : Int := 0
  join_sources : List String := []
  user_sources : List String := []
  custom_dns : List String := []
  smb_port : Int := 0
  ceph_config_entity : String := "client.admin"
  vhostname : String := ""
  metrics_image : String := ""
  metrics_port : Int := 0
  rank : Int := -1
  rank_generation : Int := -1
  cluster_meta_uri : String := ""
  cluster_lock_uri : String := ""
  cluster_public_addrs : List ClusterPublicIP := []
deriving DecidableEq, Repr

/-- `Config.config_uris`: the source config, then user sources, then the
generated ctdb.json path when clustered. -/
def Config.config_uris (cfg : Config) : List String :=
  cfg.source_config :: (cfg.user_sources ++
    (if cfg.clustered then ["/etc/samba/container/ctdb.json"] else []))

/-- CPython's `Py_UNICODE_ISSPACE`: the character class stripped by
`str.strip()` with no argument. -/
def pyIsSpace (c : Char) : Bool :=
  let n := c.toNat
  (9 ≤ n && n ≤ 13) || (28 ≤ n && n ≤ 31) || n == 32 || n == 0x85 ||
    n == 0xa0 || n == 0x1680 || (0x2000 ≤ n && n ≤ 0x200a) || n == 0x2028 ||
    n == 0x2029 || n == 0x202f || n == 0x205f || n == 0x3000

/-- Python `str.strip()`: drop whitespace from both ends. -/
def pyStrip (s : String) : String :=
  String.mk (((s.data.dropWhile pyIsSpace).reverse.dropWhile pyIsSpace).reverse)

/-- A role instance as built by `SMB._layout`: the role together with the
image string passed to its constructor (empty everywhere except the
metrics sidecar, which receives the stripped metrics image). -/
structure RoleInstance where
  role : Role
  image : String
deriving DecidableEq, Repr

/-- `ContainerLayout`: ordered init containers, the primary container and
the ordered supplemental (sidecar) containers. -/
structure ContainerLayout where
  init_containers : List RoleInstance
  primary : RoleInstance
  supplemental : List RoleInstance
deriving DecidableEq, Repr

/-- `SMB._layout`: builds the layout by appending to the init and
supplemental buckets in source order — config-init and configwatch always,
must-join and winbindd when a domain member, smbmetrics when a stripped
metrics image is non-empty and the metrics port is positive, and the CTDB
containers when clustered.  The primary is always smbd. -/
def SMB._layout (cfg : Config) : ContainerLayout :=
  let init_ctrs : List RoleInstance := [RoleInstance.mk Role.config ""]
  let ctrs : List RoleInstance := [RoleInstance.mk Role.configwatch ""]
  let init_ctrs :=
    if cfg.domain_member then init_ctrs ++ [RoleInstance.mk Role.mustjoin ""]
    else init_ctrs
  let ctrs :=
    if cfg.domain_member then ctrs ++ [RoleInstance.mk Role.winbindd ""]
    else ctrs
  let metrics_image := pyStrip cfg.metrics_image
  let ctrs :=
    if metrics_image ≠ "" ∧ cfg.metrics_port > 0 then
      ctrs ++ [RoleInstance.mk Role.smbmetrics metrics_image]
    else ctrs
  let init_ctrs :=
    if cfg.clustered then
      init_ctrs ++
        [RoleInstance.mk Role.ctdbMigrate "",
         RoleInstance.mk Role.ctdbMustHaveNode ""]
    else init_ctrs
  let ctrs :=
    if cfg.clustered then
      ctrs ++ [RoleInstance.mk Role.ctdbd "", RoleInstance.mk Role.ctdbNodes ""]
    else ctrs
  ContainerLayout.mk init_ctrs (RoleInstance.mk Role.smbd "") ctrs

/-- All role instances of a layout: init containers, then the primary,
then the sidecars. -/
def ContainerLayout.allContainers (l : ContainerLayout) : List RoleInstance :=
  l.init_containers ++ [l.primary] ++ l.supplemental

/-- Claim C10: the role-name strings used to derive each container's
sub-identity are `config`, `mustjoin`, `ctdbMigrate`, `ctdbMustHaveNode`,
`ctdbd`, `ctdbNodes`, `configwatch`, `smbd`, `winbindd` and `smbmetrics` —
camel-cased, not the hyphenated catalog labels. -/
theorem role_name_strings :
    Role.name Role.config = "config" ∧
    Role.name Role.mustjoin = "mustjoin" ∧
    Role.name Role.ctdbMigrate = "ctdbMigrate" ∧
    Role.name Role.ctdbMustHaveNode = "ctdbMustHaveNode" ∧
    Role.name Role.ctdbd = "ctdbd" ∧
    Role.name Role.ctdbNodes = "ctdbNodes" ∧
    Role.name Role.configwatch = "configwatch" ∧
    Role.name Role.smbd = "smbd" ∧
    Role.name Role.winbindd = "winbindd" ∧
    Role.name Role.smbmetrics = "smbmetrics" := by
  exact ⟨rfl, rfl, rfl, rfl, rfl, rfl, rfl, rfl, rfl, rfl⟩

/-- Closed form of `SMB._layout`: the incremental bucket construction equals
the concatenation of the conditional fragments, in insertion order. -/
theorem SMB.layout_decomp (cfg : Config) :
    SMB._layout cfg =
      ContainerLayout.mk
        ([RoleInstance.mk Role.config ""] ++
          (if cfg.domain_member then [RoleInstance.mk Role.mustjoin ""] else []) ++
          (if cfg.clustered then
            [RoleInstance.mk Role.ctdbMigrate "",
             RoleInstance.mk Role.ctdbMustHaveNode ""] else []))
        (RoleInstance.mk Role.smbd "")
        ([RoleInstance.mk Role.configwatch ""] ++
          (if cfg.domain_member then [RoleInstance.mk Role.winbindd ""] else []) ++
          (if pyStrip cfg.metrics_image ≠ "" ∧ cfg.metrics_port > 0 then
            [RoleInstance.mk Role.smbmetrics (pyStrip cfg.metrics_image)] else []) ++
          (if cfg.clustered then
            [RoleInstance.mk Role.ctdbd "", RoleInstance.mk Role.ctdbNodes ""]
           else [])) := by
  have hdm := Bool.dichotomy cfg.domain_member
  have hcl := Bool.dichotomy cfg.clustered
  by_cases hm : pyStrip cfg.metrics_image ≠ "" ∧ cfg.metrics_port > 0 <;>
    rcases hdm with hdm | hdm <;> rcases hcl with hcl | hcl <;>
    simp [SMB._layout, hdm, hcl, hm]

/-- Claim C1: the layout is exactly: init = config-init, then must-join when
a domain member, then the two CTDB init containers when clustered; primary =
smbd; supplemental = configwatch, then winbindd when a domain member, then
smbmetrics when a (stripped) metrics image is configured and the metrics
port is positive, then the two CTDB sidecars when clustered — each bucket in
exactly this insertion order. -/
theorem layout_buckets_exact (cfg : Config) :
    (SMB._layout cfg).init_containers =
      [RoleInstance.mk Role.config ""] ++
        (if cfg.domain_member then [RoleInstance.mk Role.mustjoin ""] else []) ++
        (if cfg.clustered then
          [RoleInstance.mk Role.ctdbMigrate "",
           RoleInstance.mk Role.ctdbMustHaveNode ""] else []) ∧
    (SMB._layout cfg).primary = RoleInstance.mk Role.smbd "" ∧
    (SMB._layout cfg).supplemental =
      [RoleInstance.mk Role.configwatch ""] ++
        (if cfg.domain_member then [RoleInstance.mk Role.winbindd ""] else []) ++
        (if pyStrip cfg.metrics_image ≠ "" ∧ cfg.metrics_port > 0 then
          [RoleInstance.mk Role.smbmetrics (pyStrip cfg.metrics_image)] else []) ++
        (if cfg.clustered then
          [RoleInstance.mk Role.ctdbd "", RoleInstance.mk Role.ctdbNodes ""]
         else []) := by
  rw [SMB.layout_decomp]
  exact ⟨rfl, rfl, rfl⟩

/-- A simple non-clustered, non-domain base configuration used to instantiate
universally quantified theorems at concrete inputs. -/
def cfgBase : Config :=
  { identityDaemonName := "smb.tank.mynode"
    instance_id := "tank"
    source_config := "rados://.smb/tank/scc.toml"
    domain_member := false
    clustered := false }

/-- Stripping a string made only of whitespace yields the empty string. -/
theorem pyStrip_eq_empty_of_all_space (s : String)
    (h : ∀ c ∈ s.data, pyIsSpace c) : pyStrip s = "" := by
  unfold pyStrip
  rw [List.dropWhile_eq_nil_iff.mpr h]
  rfl

/-- Claim C9: a metrics image consisting only of whitespace is stripped to
the empty string before the presence test, so the layout contains no
smbmetrics sidecar even when the metrics port is positive. -/
theorem whitespace_metrics_image_no_smbmetrics (cfg : Config)
    (h : ∀ c ∈ cfg.metrics_image.data, pyIsSpace c) :
    Role.smbmetrics ∉ (SMB._layout cfg).supplemental.map RoleInstance.role := by
  have hs : pyStrip cfg.metrics_image = "" :=
    pyStrip_eq_empty_of_all_space _ h
  rw [SMB.layout_decomp]
  simp [hs]
  rintro x _ (rfl | rfl) <;> simp

/-- Configuration whose metrics image is a single space with a positive
metrics port. -/
def cfgWhitespaceMetrics : Config :=
  { cfgBase with metrics_image := " ", metrics_port := 9922 }

/-- Witness for C9 at the concrete whitespace-image configuration. -/
theorem whitespace_metrics_image_no_smbmetrics_witness :
    (∀ c ∈ cfgWhitespaceMetrics.metrics_image.data, pyIsSpace c) ∧
    Role.smbmetrics ∉
      (SMB._layout cfgWhitespaceMetrics).supplemental.map RoleInstance.role :=
  ⟨by decide, whitespace_metrics_image_no_smbmetrics cfgWhitespaceMetrics (by decide)⟩

/-- A domain-member configuration. -/
def cfgDomain : Config := { cfgBase with domain_member := true }

/-- Claim C3 counterexample: with `domain_member = true` the supplemental
bucket is `[configwatch, winbindd]` — winbindd does NOT come before
configwatch; the claim's ordering is reversed with respect to the code. -/
theorem winbindd_before_configwatch_false :
    cfgDomain.domain_member = true ∧
    (SMB._layout cfgDomain).supplemental.map RoleInstance.role =
      [Role.configwatch, Role.winbindd] ∧
    ¬ List.indexOf Role.winbindd
        ((SMB._layout cfgDomain).supplemental.map RoleInstance.role) <
      List.indexOf Role.configwatch
        ((SMB._layout cfgDomain).supplemental.map RoleInstance.role) := by
  decide

/-- Claim C3 (amended): for every domain-member Config, the init bucket
starts `[config-init, must-join]` (must-join immediately after config-init)
and the supplemental bucket starts `[configwatch, winbindd]` (winbindd
immediately AFTER configwatch, not before it), regardless of other flags. -/
theorem domain_member_layout_order (cfg : Config)
    (h : cfg.domain_member = true) :
    (SMB._layout cfg).init_containers.take 2 =
      [RoleInstance.mk Role.config "", RoleInstance.mk Role.mustjoin ""] ∧
    (SMB._layout cfg).supplemental.take 2 =
      [RoleInstance.mk Role.configwatch "", RoleInstance.mk Role.winbindd ""] := by
  rw [SMB.layout_decomp]
  simp [h]

/-- Witness for the amended C3 at a concrete domain-member configuration. -/
theorem domain_member_layout_order_witness :
    cfgDomain.domain_member = true ∧
    (SMB._layout cfgDomain).init_containers.take 2 =
      [RoleInstance.mk Role.config "", RoleInstance.mk Role.mustjoin ""] ∧
    (SMB._layout cfgDomain).supplemental.take 2 =
      [RoleInstance.mk Role.configwatch "", RoleInstance.mk Role.winbindd ""] :=
  ⟨rfl, (domain_member_layout_order cfgDomain rfl).1,
    (domain_member_layout_order cfgDomain rfl).2⟩

/-- The host network inventory cached by `_NetworkMapper.load()`: an ordered
mapping from network name to the list of device names registered under it. -/
abbrev NetworkInventory := List (String × List String)

/-- `_NetworkMapper._convert`: walk the address's destination networks in
order; a name missing from the inventory is skipped, a present name has each
of its devices appended to the accumulated device list.  The result reuses
the `ClusterPublicIP` shape with the devices in the second slot. -/
def _NetworkMapper._convert (networks : NetworkInventory)
    (addr : ClusterPublicIP) : ClusterPublicIP :=
  ClusterPublicIP.mk addr.address
    (addr.destinations.foldl
      (fun devs net =>
        match networks.lookup net with
        | none => devs
        | some ds => ds.foldl (fun acc dev => acc ++ [dev]) devs)
      [])

/-- Resolution as the spec words it, for the refinement comparison: each
destination in order contributes every device of its network when the
network is in the inventory, and nothing when it is not. -/
def resolveDestinationsSpec (networks : NetworkInventory) :
    List String → List String
  | [] => []
  | net :: rest =>
    (match networks.lookup net with
     | some devs => devs
     | none => []) ++ resolveDestinationsSpec networks rest

/-- Appending elements one at a time onto an accumulator is appending. -/
theorem foldl_append_singleton (ds acc : List String) :
    ds.foldl (fun a dev => a ++ [dev]) acc = acc ++ ds := by
  induction ds generalizing acc with
  | nil => simp
  | cons d ds ih => simp [List.foldl_cons, ih]

/-- The `_convert` accumulation loop computes the spec-side resolution. -/
theorem convert_foldl_eq_resolve (networks : NetworkInventory)
    (dests acc : List String) :
    dests.foldl
      (fun devs net =>
        match networks.lookup net with
        | none => devs
        | some ds => ds.foldl (fun a dev => a ++ [dev]) devs)
      acc = acc ++ resolveDestinationsSpec networks dests := by
  induction dests generalizing acc with
  | nil => simp [resolveDestinationsSpec]
  | cons net rest ih =>
    rw [List.foldl_cons, ih, resolveDestinationsSpec]
    cases networks.lookup net with
    | none => simp
    | some ds => simp [foldl_append_singleton ds acc]

/-- When every destination is unknown, spec-side resolution is empty. -/
theorem resolve_empty_of_unknown (networks : NetworkInventory)
    (dests : List String)
    (hall : ∀ net ∈ dests, networks.lookup net = none) :
    resolveDestinationsSpec networks dests = [] := by
  induction dests with
  | nil => rfl
  | cons net rest ih =>
    have h0 : networks.lookup net = none := hall net (List.mem_cons_self _ _)
    rw [resolveDestinationsSpec, h0]
    exact ih fun n hn => hall n (List.mem_cons_of_mem _ hn)

/-- Claim C2: resolving a `ClusterPublicIP` keeps its address and yields, in
destination order then device order, every device of every destination
network present in the inventory (duplicates kept, unknown names skipped
without error); when every destination is unknown the interface list is
empty. -/
theorem convert_resolves (networks : NetworkInventory)
    (addr : ClusterPublicIP) :
    (_NetworkMapper._convert networks addr).address = addr.address ∧
    (_NetworkMapper._convert networks addr).destinations =
      resolveDestinationsSpec networks addr.destinations ∧
    ((∀ net ∈ addr.destinations, networks.lookup net = none) →
      (_NetworkMapper._convert networks addr).destinations = []) := by
  have hmain : (_NetworkMapper._convert networks addr).destinations =
      resolveDestinationsSpec networks addr.destinations := by
    unfold _NetworkMapper._convert
    exact convert_foldl_eq_resolve networks addr.destinations []
  refine ⟨rfl, hmain, fun hall => ?_⟩
  rw [hmain]
  exact resolve_empty_of_unknown networks addr.destinations hall

/-- The round-trip inventory from the spec scenario. -/
def invScenario : NetworkInventory :=
  [("netA", ["eth0"]), ("netB", ["eth1", "eth2"])]

/-- Witness for C2: `["netA","netB"]` resolves to `["eth0","eth1","eth2"]`
in order, and an address whose only destination is the unknown `netC`
resolves to no interfaces. -/
theorem convert_resolves_witness :
    (_NetworkMapper._convert invScenario
      (ClusterPublicIP.mk "192.168.1.21" ["netA", "netB"])).destinations =
      ["eth0", "eth1", "eth2"] ∧
    (_NetworkMapper._convert invScenario
      (ClusterPublicIP.mk "192.168.1.22" ["netC"])).destinations = [] :=
  ⟨((convert_resolves invScenario
      (ClusterPublicIP.mk "192.168.1.21" ["netA", "netB"])).2.1).trans (by decide),
   (convert_resolves invScenario
      (ClusterPublicIP.mk "192.168.1.22" ["netC"])).2.2 (by decide)⟩

/-- The record shape `_NetworkMapper.for_sambacc` emits per public address:
the address together with its resolved interface names. -/
structure PublicAddrRecord where
  address : String
  interfaces : List String
deriving DecidableEq, Repr

/-- `_NetworkMapper.for_sambacc`: nothing when no cluster public addresses
are configured, otherwise one record per address with its converted device
list. -/
def _NetworkMapper.for_sambacc (networks : NetworkInventory)
    (cfg : Config) : List PublicAddrRecord :=
  if cfg.cluster_public_addrs = [] then []
  else
    (cfg.cluster_public_addrs.map (_NetworkMapper._convert networks)).map
      (fun a => PublicAddrRecord.mk a.address a.destinations)

/-- `_SCC`: path of the sambacc command-line tool inside the containers. -/
def _SCC : String := "/usr/bin/samba-container"

/-- `_NODES_SUBCMD`: the node-list command. -/
def _NODES_SUBCMD : List String := [_SCC, "ctdb-list-nodes"]

/-- `_MUTEX_SUBCMD`: the rados mutex helper command (needs a rados uri). -/
def _MUTEX_SUBCMD : List String := [_SCC, "ctdb-rados-mutex"]

/-- Python `str.join` over a list of strings. -/
def strJoin (sep : String) : List String → String
  | [] => ""
  | [x] => x
  | x :: y :: rest => x ++ sep ++ strJoin sep (y :: rest)

/-- The `ctdb` section of the generated cluster descriptor. -/
structure CtdbSection where
  recovery_lock : String
  cluster_meta_uri : String
  nodes_cmd : String
  public_addresses : List PublicAddrRecord
  log_level : Option String
deriving DecidableEq, Repr

/-- The generated cluster descriptor (`ctdb.json`) content. -/
structure CtdbStubConfig where
  samba_container_config : String
  ctdb : CtdbSection
deriving DecidableEq, Repr

/-- `SMB._write_ctdb_stub_config`: the JSON value written to
`etc-samba-container/ctdb.json` when clustered — version marker plus the
ctdb section with a `!`-prefixed recovery-lock command line, the cluster
meta uri, the node-list command, the mapped public addresses, and the log
level only when one is configured. -/
def SMB._write_ctdb_stub_config (networks : NetworkInventory)
    (cfg : Config) : CtdbStubConfig :=
  let reclock_cmd := strJoin (" ") (_MUTEX_SUBCMD ++ [cfg.cluster_lock_uri])
  let nodes_cmd := strJoin (" ") _NODES_SUBCMD
  CtdbStubConfig.mk "v0"
    (CtdbSection.mk ("!" ++ reclock_cmd) cfg.cluster_meta_uri nodes_cmd
      (_NetworkMapper.for_sambacc networks cfg)
      (if cfg.ctdb_log_level ≠ "" then some cfg.ctdb_log_level else none))

/-- Claim C5: for every clustered Config the descriptor's recovery_lock is
`!` followed by the mutex helper command followed by a space and the
configured cluster lock uri. -/
theorem recovery_lock_format (networks : NetworkInventory) (cfg : Config)
    (_h : cfg.clustered = true) :
    (SMB._write_ctdb_stub_config networks cfg).ctdb.recovery_lock =
      "!/usr/bin/samba-container ctdb-rados-mutex " ++ cfg.cluster_lock_uri := by
  show "!" ++ strJoin (" ") (_MUTEX_SUBCMD ++ [cfg.cluster_lock_uri]) = _
  rw [_MUTEX_SUBCMD, _SCC]
  simp only [List.cons_append, List.nil_append, strJoin,
    ← String.append_assoc]
  congr 1

/-- A clustered configuration with the spec scenario's lock uri. -/
def cfgClustered : Config :=
  { cfgBase with
    clustered := true
    cluster_meta_uri := "rados://.smb/tank/cluster.meta"
    cluster_lock_uri := "rados://pool/obj" }

/-- Witness for C5: with `cluster_lock_uri = "rados://pool/obj"` the
descriptor's recovery_lock is the exact scenario string. -/
theorem recovery_lock_format_witness :
    cfgClustered.clustered = true ∧
    (SMB._write_ctdb_stub_config [] cfgClustered).ctdb.recovery_lock =
      "!/usr/bin/samba-container ctdb-rados-mutex rados://pool/obj" :=
  ⟨rfl, (recovery_lock_format [] cfgClustered rfl).trans (by decide)⟩

/-- Lower-case hexadecimal digit character. -/
def hexDigitChar (n : Nat) : Char :=
  if n < 10 then Char.ofNat (48 + n) else Char.ofNat (87 + n % 16)

/-- A `\uXXXX` escape for a 16-bit code unit. -/
def uEscape (n : Nat) : List Char :=
  ['\\', 'u', hexDigitChar (n / 4096 % 16), hexDigitChar (n / 256 % 16),
   hexDigitChar (n / 16 % 16), hexDigitChar (n % 16)]

/-- `json.dumps` escaping of one character (default `ensure_ascii=True`):
the two-character shorthands, `\uXXXX` for other control and non-ASCII
characters (surrogate pairs above the BMP), the character itself otherwise. -/
def jsonEscapeChar (c : Char) : List Char :=
  if c = '"' then ['\\', '"']
  else if c = '\\' then ['\\', '\\']
  else if c.toNat = 8 then ['\\', 'b']
  else if c.toNat = 9 then ['\\', 't']
  else if c.toNat = 10 then ['\\', 'n']
  else if c.toNat = 12 then ['\\', 'f']
  else if c.toNat = 13 then ['\\', 'r']
  else if c.toNat < 32 ∨ 126 < c.toNat then
    if c.toNat ≤ 0xffff then uEscape c.toNat
    else
      uEscape (0xd800 + (c.toNat - 0x10000) / 1024) ++
        uEscape (0xdc00 + (c.toNat - 0x10000) % 1024)
  else [c]

/-- `json.dumps` of a single string: quoted and escaped. -/
def jsonEncodeString (s : String) : String :=
  String.mk ('"' :: (s.data.flatMap jsonEscapeChar ++ ['"']))

/-- `json.dumps` of a list of strings: bracketed, `", "`-separated encoded
elements (the default separators). -/
def json_dumps_strings (xs : List String) : String :=
  "[" ++ strJoin (", ") (xs.map jsonEncodeString) ++ "]"

/-- `ContainerCommon.envs`: the base class contributes no environment; the
metrics sidecar inherits this. -/
def ContainerCommon.envs : List (String × String) := []

/-- `SambaContainerCommon.envs`: instance correlation id, the JSON-encoded
config-URI list, the experimental-CTDB marker, the ceph identity when an
auth entity is configured, and — when `rank >= 0` — RANK, RANK_GENERATION
and NODE_NUMBER, all three rendered from `rank` (RANK_GENERATION is also
`str(self.cfg.rank)` in the source). -/
def SambaContainerCommon.envs (cfg : Config) : List (String × String) :=
  [("SAMBA_CONTAINER_ID", cfg.instance_id),
   ("SAMBACC_CONFIG", json_dumps_strings cfg.config_uris),
   ("SAMBACC_CTDB", "ctdb-is-experimental")] ++
  (if cfg.ceph_config_entity ≠ "" then
    [("SAMBACC_CEPH_ID", "name=" ++ cfg.ceph_config_entity)] else []) ++
  (if 0 ≤ cfg.rank then
    [("RANK", toString cfg.rank), ("RANK_GENERATION", toString cfg.rank),
     ("NODE_NUMBER", toString cfg.rank)] else [])

/-- The environment of a role instance: every role subclasses
`SambaContainerCommon` except the metrics sidecar, which keeps the empty
`ContainerCommon` environment. -/
def RoleInstance.envs (ri : RoleInstance) (cfg : Config) :
    List (String × String) :=
  match ri.role with
  | Role.smbmetrics => ContainerCommon.envs
  | _ => SambaContainerCommon.envs cfg

/-- Every non-metrics role instance draws its environment from
`SambaContainerCommon.envs`. -/
theorem envs_eq_samba_envs (ri : RoleInstance) (cfg : Config)
    (h : ri.role ≠ Role.smbmetrics) :
    RoleInstance.envs ri cfg = SambaContainerCommon.envs cfg := by
  rcases ri with ⟨r, img⟩
  cases r <;> first | rfl | exact absurd rfl h

/-- Claim C6 counterexample: a configured metrics sidecar is part of the
layout, yet its environment is empty — the JSON-encoded URI list does not
appear in the environment of *every* containerized role. -/
theorem config_uris_env_counterexample :
    RoleInstance.mk Role.smbmetrics ("quay.io/samba/metrics:latest") ∈
      (SMB._layout
        { cfgBase with
          metrics_image := "quay.io/samba/metrics:latest"
          metrics_port := 9922 }).allContainers ∧
    RoleInstance.envs (RoleInstance.mk Role.smbmetrics ("quay.io/samba/metrics:latest"))
      { cfgBase with
        metrics_image := "quay.io/samba/metrics:latest"
        metrics_port := 9922 } = [] := by
  constructor
  · decide
  · rfl

/-- Claim C6 (amended): `config_uris()` is `[source_config] ++ user_sources
++ (['/etc/samba/container/ctdb.json'] when clustered)`, and this exact
list JSON-encoded appears as SAMBACC_CONFIG in the environment of every
samba-container role — every role except the smbmetrics sidecar, whose
environment is empty. -/
theorem config_uris_in_env (cfg : Config) (ri : RoleInstance)
    (h : ri.role ≠ Role.smbmetrics) :
    cfg.config_uris =
      [cfg.source_config] ++ cfg.user_sources ++
        (if cfg.clustered then ["/etc/samba/container/ctdb.json"] else []) ∧
    ("SAMBACC_CONFIG", json_dumps_strings cfg.config_uris) ∈
      RoleInstance.envs ri cfg := by
  refine ⟨by simp [Config.config_uris], ?_⟩
  rw [envs_eq_samba_envs ri cfg h]
  simp [SambaContainerCommon.envs]

/-- Witness for the amended C6: at the clustered configuration the smbd
primary's environment carries the JSON-encoded URI list. -/
theorem config_uris_in_env_witness :
    cfgClustered.config_uris =
      ["rados://.smb/tank/scc.toml", "/etc/samba/container/ctdb.json"] ∧
    ("SAMBACC_CONFIG", json_dumps_strings cfgClustered.config_uris) ∈
      RoleInstance.envs (RoleInstance.mk Role.smbd ("")) cfgClustered :=
  ⟨by decide,
   (config_uris_in_env cfgClustered (RoleInstance.mk Role.smbd ("")) (by decide)).2⟩

/-- Claim C8: whenever `rank >= 0`, every samba-container role environment
sets RANK_GENERATION to the decimal string of `rank` — the same value as
RANK and NODE_NUMBER — and the `rank_generation` field never influences any
role environment. -/
theorem rank_generation_ignored (cfg : Config) (ri : RoleInstance)
    (h : 0 ≤ cfg.rank) (hrole : ri.role ≠ Role.smbmetrics) :
    ("RANK", toString cfg.rank) ∈ RoleInstance.envs ri cfg ∧
    ("RANK_GENERATION", toString cfg.rank) ∈ RoleInstance.envs ri cfg ∧
    ("NODE_NUMBER", toString cfg.rank) ∈ RoleInstance.envs ri cfg ∧
    (∀ (other : RoleInstance) (rg : Int),
      RoleInstance.envs other { cfg with rank_generation := rg } =
        RoleInstance.envs other cfg) := by
  rw [envs_eq_samba_envs ri cfg hrole]
  refine ⟨?_, ?_, ?_, ?_⟩
  · simp [SambaContainerCommon.envs, h]
  · simp [SambaContainerCommon.envs, h]
  · simp [SambaContainerCommon.envs, h]
  · intro other rg
    rcases other with ⟨r, img⟩
    cases r <;> rfl

/-- A clustered configuration with rank 3 but a different rank generation. -/
def cfgRanked : Config :=
  { cfgBase with clustered := true, rank := 3, rank_generation := 7 }

/-- Witness for C8: with rank 3 and rank_generation 7, smbd's environment
sets RANK_GENERATION to "3" and is unchanged when rank_generation varies. -/
theorem rank_generation_ignored_witness :
    ("RANK_GENERATION", "3") ∈
      RoleInstance.envs (RoleInstance.mk Role.smbd ("")) cfgRanked ∧
    RoleInstance.envs (RoleInstance.mk Role.smbd (""))
        { cfgRanked with rank_generation := 12 } =
      RoleInstance.envs (RoleInstance.mk Role.smbd ("")) cfgRanked := by
  have h := rank_generation_ignored cfgRanked
    (RoleInstance.mk Role.smbd ("")) (by decide) (by decide)
  have h3 : toString cfgRanked.rank = "3" := by decide
  rw [h3] at h
  exact ⟨h.2.1, h.2.2.2 (RoleInstance.mk Role.smbd ("")) 12⟩

/-- `Features.valid`: the recognized feature tags are exactly `domain` and
`clustered`. -/
def Features.valid (value : String) : Bool :=
  value == "domain" || value == "clustered"

/-- The raw key/value record `SMB.validate` reads (after the `.get` defaults
and the `int()` coercion of the metrics port). -/
structure RawConfig where
  cluster_id : String := ""
  config_uri : String := ""
  join_sources : List String := []
  user_sources : List String := []
  custom_dns : List String := []
  features : List String := []
  config_auth_entity : String := ""
  virtual_hostname : String := ""
  metrics_image : String := ""
  metrics_port : Int := 0
  cluster_meta_uri : String := ""
  cluster_lock_uri : String := ""
  cluster_public_addrs : List ClusterPublicIP := []
deriving DecidableEq, Repr

/-- The `Error` values `SMB.validate` can raise.  The feature error carries
the offending tags (the source raises one message naming the whole set of
distinct invalid tags; here the set is represented as the deduplicated list
in first-occurrence order). -/
inductive SMBError where
  | invalidInstanceId
  | invalidSourceUri
  | invalidFeatures (tags : List String)
deriving DecidableEq, Repr

/-- `SMB.validate`: reject an empty instance id, then an empty source uri,
then any unrecognized feature tags (all of them in one error); otherwise
build the `Config`, synthesizing `"{instance_id}-{fqdn}"` when no virtual
hostname is supplied.  `hostFqdn` stands for `socket.getfqdn()`,
`rankInfo` for the fetched `(rank, rank_generation)` pair, `identity` for
the daemon identity, and the SMB port is the fixed instance attribute 445. -/
def SMB.validate (identity : String) (hostFqdn : String)
    (rankInfo : Int × Int) (rc : RawConfig) : Except SMBError Config :=
  if rc.cluster_id = "" then Except.error SMBError.invalidInstanceId
  else if rc.config_uri = "" then Except.error SMBError.invalidSourceUri
  else
    let invalid_features := (rc.features.filter fun f => !(Features.valid f)).dedup
    if invalid_features ≠ [] then
      Except.error (SMBError.invalidFeatures invalid_features)
    else
      let vhostname :=
        if rc.virtual_hostname = "" then rc.cluster_id ++ "-" ++ hostFqdn
        else rc.virtual_hostname
      Except.ok
        { identityDaemonName := identity
          instance_id := rc.cluster_id
          source_config := rc.config_uri
          join_sources := rc.join_sources
          user_sources := rc.user_sources
          custom_dns := rc.custom_dns
          domain_member := rc.features.contains "domain"
          clustered := rc.features.contains "clustered"
          smb_port := 445
          ceph_config_entity := rc.config_auth_entity
          vhostname := vhostname
          metrics_image := rc.metrics_image
          metrics_port := rc.metrics_port
          rank := rankInfo.1
          rank_generation := rankInfo.2
          cluster_meta_uri := rc.cluster_meta_uri
          cluster_lock_uri := rc.cluster_lock_uri
          cluster_public_addrs := rc.cluster_public_addrs }

/-- Claim C4: any feature list holding an unrecognized tag fails validation;
when the instance id and source uri are present the single feature error
names every unrecognized tag; and feature lists drawn only from
{domain, clustered} (with non-empty id and source uri) validate
successfully. -/
theorem validate_features (identity hostFqdn : String) (rankInfo : Int × Int)
    (rc : RawConfig) :
    ((∃ f ∈ rc.features, ¬ Features.valid f) →
      ∃ e, SMB.validate identity hostFqdn rankInfo rc = Except.error e) ∧
    (rc.cluster_id ≠ "" → rc.config_uri ≠ "" →
      (∃ f ∈ rc.features, ¬ Features.valid f) →
      ∃ tags, SMB.validate identity hostFqdn rankInfo rc =
          Except.error (SMBError.invalidFeatures tags) ∧
        ∀ f ∈ rc.features, ¬ Features.valid f → f ∈ tags) ∧
    (rc.cluster_id ≠ "" → rc.config_uri ≠ "" →
      (∀ f ∈ rc.features, Features.valid f) →
      ∃ cfg, SMB.validate identity hostFqdn rankInfo rc = Except.ok cfg) := by
  have hbad : ∀ (hbadf : ∃ f ∈ rc.features, ¬ Features.valid f),
      rc.cluster_id ≠ "" → rc.config_uri ≠ "" →
      ∃ tags, SMB.validate identity hostFqdn rankInfo rc =
          Except.error (SMBError.invalidFeatures tags) ∧
        ∀ f ∈ rc.features, ¬ Features.valid f → f ∈ tags := by
    rintro ⟨f, hf, hvf⟩ hid huri
    have hmem : f ∈ (rc.features.filter fun g => !(Features.valid g)).dedup := by
      rw [List.mem_dedup, List.mem_filter]
      exact ⟨hf, by simpa using hvf⟩
    have hne : (rc.features.filter fun g => !(Features.valid g)).dedup ≠ [] :=
      List.ne_nil_of_mem hmem
    refine ⟨(rc.features.filter fun g => !(Features.valid g)).dedup, ?_, ?_⟩
    · unfold SMB.validate
      rw [if_neg hid, if_neg huri, if_pos hne]
    · intro g hg hvg
      rw [List.mem_dedup, List.mem_filter]
      exact ⟨hg, by simpa using hvg⟩
  refine ⟨?_, fun hid huri hbadf => hbad hbadf hid huri, ?_⟩
  · intro hbadf
    by_cases hid : rc.cluster_id = ""
    · exact ⟨SMBError.invalidInstanceId, by unfold SMB.validate; rw [if_pos hid]⟩
    by_cases huri : rc.config_uri = ""
    · exact ⟨SMBError.invalidSourceUri, by
        unfold SMB.validate; rw [if_neg hid, if_pos huri]⟩
    obtain ⟨tags, htags, -⟩ := hbad hbadf hid huri
    exact ⟨SMBError.invalidFeatures tags, htags⟩
  · intro hid huri hgood
    have hnil : (rc.features.filter fun g => !(Features.valid g)) = [] := by
      rw [List.filter_eq_nil_iff]
      intro g hg
      simpa using hgood g hg
    unfold SMB.validate
    rw [if_neg hid, if_neg huri]
    simp [hnil]

/-- RawConfig of the spec scenario `features=["bogus"]`. -/
def rcBogus : RawConfig :=
  { cluster_id := "tank"
    config_uri := "rados://.smb/tank/scc.toml"
    features := ["bogus"] }

/-- RawConfig with only recognized features. -/
def rcGood : RawConfig :=
  { cluster_id := "tank"
    config_uri := "rados://.smb/tank/scc.toml"
    features := ["domain", "clustered"] }

/-- Witness for C4: `features=["bogus"]` fails naming "bogus"; both
recognized tags together validate successfully. -/
theorem validate_features_witness :
    (∃ tags, SMB.validate ("smb.tank.mynode") ("mynode.example.com") (-1, -1)
        rcBogus = Except.error (SMBError.invalidFeatures tags) ∧
      "bogus" ∈ tags) ∧
    (∃ cfg, SMB.validate ("smb.tank.mynode") ("mynode.example.com") (-1, -1)
        rcGood = Except.ok cfg) := by
  constructor
  · obtain ⟨tags, htags, hall⟩ :=
      (validate_features ("smb.tank.mynode") ("mynode.example.com") (-1, -1)
        rcBogus).2.1 (by decide) (by decide) ⟨"bogus", by decide, by decide⟩
    exact ⟨tags, htags, hall "bogus" (by decide) (by decide)⟩
  · exact (validate_features ("smb.tank.mynode") ("mynode.example.com") (-1, -1)
      rcGood).2.2 (by decide) (by decide) (by decide)

/-- A network endpoint: bind address and port (`net_utils.EndPoint`). -/
structure EndPoint where
  ip : String
  port : Int
deriving DecidableEq, Repr

/-- `SMB.customize_container_endpoints`: append a 0.0.0.0 endpoint for the
SMB port unless some endpoint already has that port; then, when the metrics
port is positive, append a 0.0.0.0 endpoint for the metrics port unless
some endpoint of the (possibly extended) list already has it. -/
def SMB.customize_container_endpoints (smb_port metrics_port : Int)
    (endpoints : List EndPoint) : List EndPoint :=
  let endpoints :=
    if endpoints.any fun ep => ep.port == smb_port then endpoints
    else endpoints ++ [EndPoint.mk "0.0.0.0" smb_port]
  if metrics_port > 0 then
    if endpoints.any fun ep => ep.port == metrics_port then endpoints
    else endpoints ++ [EndPoint.mk "0.0.0.0" metrics_port]
  else endpoints

/-- Claim C7: the endpoint hook keeps every pre-existing endpoint in place
and appends an SMB-port endpoint only when no endpoint already has that
port, then — when the metrics port is positive — a metrics-port endpoint
only when no endpoint (including a just-appended SMB one) already has that
port. -/
theorem customize_endpoints_appends (smb_port metrics_port : Int)
    (endpoints : List EndPoint) :
    SMB.customize_container_endpoints smb_port metrics_port endpoints =
      endpoints ++
        (if ∃ ep ∈ endpoints, ep.port = smb_port then []
         else [EndPoint.mk "0.0.0.0" smb_port]) ++
        (if metrics_port > 0 ∧
            ¬ ∃ ep ∈ endpoints ++
              (if ∃ ep ∈ endpoints, ep.port = smb_port then []
               else [EndPoint.mk "0.0.0.0" smb_port]), ep.port = metrics_port
         then [EndPoint.mk "0.0.0.0" metrics_port] else []) := by
  unfold SMB.customize_container_endpoints
  have hany : ∀ (l : List EndPoint) (p : Int),
      (l.any fun ep => ep.port == p) = true ↔ ∃ ep ∈ l, ep.port = p := by
    intro l p
    simp [List.any_eq_true]
  by_cases hs : ∃ ep ∈ endpoints, ep.port = smb_port <;>
    by_cases hm : metrics_port > 0 <;>
    simp only [hany, hs, hm, if_true, if_false, if_pos, if_neg,
      not_false_iff, not_true, List.append_nil] <;>
    split_ifs <;>
    simp_all [hany]
